import Mathlib

/-!
# Verification of a custom dynamic array (`custom::vector`) and LIFO adaptor (`custom::stack`)

Shallow embedding of `src/vector.h` and `src/stack.h`.

Modelling choices, matched one-to-one with the C++ source:

* A vector value is a record of the four data members of `custom::vector`:
  the allocator `alloc` (modelled by its injectable state, a `Nat` tag;
  a default-constructed allocator has tag `0`), the buffer pointer `data`
  (modelled as `Option Nat`: `none` is `nullptr`, `some id` is the address of
  an allocated region, identified by the allocation that produced it), the
  field `numCapacity`, and the live elements `buffer[0 .. numElements)`
  (modelled as the list `elems`, so `numElements = elems.length`; slots
  `[numElements, numCapacity)` are uninitialized storage and have no
  representation, which embeds invariant I1's "never read" structurally).
* Allocation is modelled by threading a heap counter `σ : Nat` through every
  operation that can call `alloc.allocate`: a call to `allocate` returns the
  fresh address `some σ` and bumps the counter.  `allocate n` returns a
  non-null pointer for every `n`, including `n = 0`, exactly as
  `std::allocator<T>::allocate` does (it calls `operator new`, which never
  returns null).  The returned counter measures how many allocations an
  operation performed.
* `alloc.construct` / `alloc.destroy` manipulate the live prefix, i.e. the
  `elems` list.  `alloc.deallocate` releases a region and is observationally
  silent (no leak accounting is needed for the claims).
-/

set_option linter.unusedVariables false

namespace custom

/-- The state of one `custom::vector<T>` object: its four data members
(`alloc`, `data`, `numCapacity`, and the live contents standing for
`numElements` many constructed slots). -/
structure vector (α : Type) where
  alloc : Nat
  data : Option Nat
  numCapacity : Nat
  elems : List α
deriving DecidableEq, Repr

namespace vector

variable {α : Type}

/-- `numElements` data member: number of live, constructed instances. -/
def numElements (v : vector α) : Nat := v.elems.length

/-- `size()`: returns `numElements`. -/
def size (v : vector α) : Nat := v.numElements

/-- `capacity()`: returns `numCapacity`. -/
def capacity (v : vector α) : Nat := v.numCapacity

/-- `empty()`: returns `numElements == 0`. -/
def empty (v : vector α) : Bool := v.numElements == 0

/-- Default constructor `vector(const A& a)`: `alloc = a`, `data = nullptr`,
`numElements = 0`, `numCapacity = 0`. -/
def mkDefault (a : Nat) : vector α :=
  { alloc := a, data := none, numCapacity := 0, elems := [] }

/-- Sized-default constructor `vector(size_t num, const A& a)`:
`numElements = numCapacity = num`, `data = alloc.allocate(num)`
(unconditionally, also for `num = 0`), then default-construct each slot. -/
def mkSized [Inhabited α] (num : Nat) (a : Nat) (σ : Nat) : vector α × Nat :=
  ({ alloc := a, data := some σ, numCapacity := num,
     elems := List.replicate num default }, σ + 1)

/-- Sized-fill constructor `vector(size_t num, const T& t, const A& a)`:
like `mkSized` but copy-constructs every slot from `t`. -/
def mkFill (num : Nat) (t : α) (a : Nat) (σ : Nat) : vector α × Nat :=
  ({ alloc := a, data := some σ, numCapacity := num,
     elems := List.replicate num t }, σ + 1)

/-- Initializer-list constructor `vector(const std::initializer_list<T>& l, const A& a)`:
`numElements = numCapacity = l.size()`, `data = alloc.allocate(l.size())`
(unconditionally, also for an empty list), copy-construct each element in order. -/
def mkInitList (l : List α) (a : Nat) (σ : Nat) : vector α × Nat :=
  ({ alloc := a, data := some σ, numCapacity := l.length, elems := l }, σ + 1)

/-- Copy constructor `vector(const vector& rhs)`: if `rhs` is non-empty,
allocate `rhs.numElements` slots with the copy's own default-constructed
allocator (the member `alloc` is default-initialized and never assigned from
`rhs.alloc`), set `numCapacity = numElements = rhs.numElements` and
copy-construct each live element; otherwise the empty state `(null, 0, 0)`. -/
def copyCtor (rhs : vector α) (σ : Nat) : vector α × Nat :=
  if rhs.numElements ≠ 0 then
    ({ alloc := 0, data := some σ, numCapacity := rhs.numElements,
       elems := rhs.elems }, σ + 1)
  else
    ({ alloc := 0, data := none, numCapacity := 0, elems := [] }, σ)

/-- Move constructor `vector(vector&& rhs)`: steal `data`, `numElements`,
`numCapacity` (the member `alloc` is default-initialized; the constructor body
does not touch it) and reset `rhs` to `(null, 0, 0)` keeping `rhs.alloc`.
Returns `(the new vector, the moved-from rhs)`. -/
def moveCtor (rhs : vector α) : vector α × vector α :=
  ({ alloc := 0, data := rhs.data, numCapacity := rhs.numCapacity,
     elems := rhs.elems },
   { alloc := rhs.alloc, data := none, numCapacity := 0, elems := [] })

/-- `reserve(newCapacity)`: no-op when `newCapacity <= numCapacity`; otherwise
allocate a fresh region, move-construct the live elements into it in order
(destroying each source slot), free the old region, adopt the new buffer and
capacity. -/
def reserve (v : vector α) (newCapacity : Nat) (σ : Nat) : vector α × Nat :=
  if newCapacity ≤ v.numCapacity then (v, σ)
  else ({ v with data := some σ, numCapacity := newCapacity }, σ + 1)

/-- `push_back(const T&)` / `push_back(T&&)` (both overloads construct the same
value in the model): grow via `reserve(numCapacity != 0 ? numCapacity * 2 : 1)`
when `numCapacity == numElements`, then construct at `data + numElements` and
increment `numElements`. -/
def push_back (v : vector α) (t : α) (σ : Nat) : vector α × Nat :=
  let p := if v.numCapacity = v.numElements then
             v.reserve (if v.numCapacity ≠ 0 then v.numCapacity * 2 else 1) σ
           else (v, σ)
  ({ p.1 with elems := p.1.elems ++ [t] }, p.2)

/-- `pop_back()`: when `numElements != 0`, destroy `buffer[numElements-1]` and
decrement `numElements`; otherwise do nothing. -/
def pop_back (v : vector α) : vector α :=
  if v.numElements ≠ 0 then { v with elems := v.elems.dropLast } else v

/-- `clear()`: destroy all live elements, `numElements = 0`; buffer and
capacity untouched. -/
def clear (v : vector α) : vector α := { v with elems := [] }

/-- `shrink_to_fit()`: when `numCapacity > numElements`, either reallocate to
an exact-fit region of `numElements` slots (when `numElements > 0`,
copy-constructing each element) or free the buffer and go to `(null, 0)`
(when `numElements == 0`); otherwise no-op. -/
def shrink_to_fit (v : vector α) (σ : Nat) : vector α × Nat :=
  if v.numCapacity > v.numElements then
    if v.numElements > 0 then
      ({ v with data := some σ, numCapacity := v.numElements }, σ + 1)
    else
      ({ v with data := none, numCapacity := 0 }, σ)
  else (v, σ)

/-- `resize(newElements)`: shrink by destroying `[newElements, numElements)`,
or grow by reserving when `newElements > numCapacity` and default-constructing
`[numElements, newElements)`; finally `numElements = newElements`. -/
def resize [Inhabited α] (v : vector α) (newElements : Nat) (σ : Nat) :
    vector α × Nat :=
  if newElements < v.numElements then
    ({ v with elems := v.elems.take newElements }, σ)
  else if newElements > v.numElements then
    let p := if newElements > v.numCapacity then v.reserve newElements σ else (v, σ)
    ({ p.1 with
       elems := p.1.elems ++ List.replicate (newElements - v.numElements) default },
     p.2)
  else (v, σ)

/-- `resize(newElements, t)`: like `resize` but copy-constructs the new tail
from `t`. -/
def resizeFill (v : vector α) (newElements : Nat) (t : α) (σ : Nat) :
    vector α × Nat :=
  if newElements < v.numElements then
    ({ v with elems := v.elems.take newElements }, σ)
  else if newElements > v.numElements then
    let p := if newElements > v.numCapacity then v.reserve newElements σ else (v, σ)
    ({ p.1 with
       elems := p.1.elems ++ List.replicate (newElements - v.numElements) t },
     p.2)
  else (v, σ)

/-- Copy assignment `operator=(const vector& rhs)` (distinct objects; the
`this != &rhs` guard makes self-assignment a no-op, which coincides with the
value-level behaviour below): when `numCapacity < rhs.numElements`, destroy and
free the current storage, allocate exactly `rhs.numElements` and copy-construct
everything; otherwise assign over the common prefix, destroy any excess tail or
copy-construct the missing tail in place.  `alloc` is never touched.
Final `numElements = rhs.numElements`. -/
def copyAssign (v rhs : vector α) (σ : Nat) : vector α × Nat :=
  if v.numCapacity < rhs.numElements then
    ({ alloc := v.alloc, data := some σ, numCapacity := rhs.numElements,
       elems := rhs.elems }, σ + 1)
  else
    ({ v with elems := rhs.elems }, σ)

/-- `swap(rhs)`: exchange `data`, `numElements`, `numCapacity` and `alloc`
wholesale; returns `(new this, new rhs)`. -/
def swapOp (v rhs : vector α) : vector α × vector α := (rhs, v)

/-- Move assignment `operator=(vector&& rhs)`: `clear(); shrink_to_fit(); swap(rhs);`.
Returns `((new this, new rhs), heap counter)`. -/
def moveAssign (v rhs : vector α) (σ : Nat) : (vector α × vector α) × Nat :=
  let p := (v.clear).shrink_to_fit σ
  (swapOp p.1 rhs, p.2)

/-- `back()`: `data[numElements - 1]` (`none` models the undefined read on an
empty vector). -/
def back (v : vector α) : Option α := v.elems.getLast?

/-- `operator[](index)`: `data[index]` (`none` models an out-of-range read). -/
def at_ (v : vector α) (index : Nat) : Option α := v.elems.get? index

/-- One `vector<T>::iterator`: wraps the raw address `p`, modelled as the pair
(owning buffer, element offset); `(none, 0)` is the null iterator. -/
structure iterator where
  p : Option Nat × Nat
deriving DecidableEq, Repr

/-- `begin()`: `iterator(data)`. -/
def beginIt (v : vector α) : iterator := ⟨(v.data, 0)⟩

/-- `end()`: `iterator(data + numElements)`. -/
def endIt (v : vector α) : iterator := ⟨(v.data, v.numElements)⟩

end vector

/-- The state of one `custom::stack<T>`: its single data member, the backing
`container`. -/
structure stack (α : Type) where
  container : vector α
deriving DecidableEq, Repr

namespace stack

variable {α : Type}

/-- `stack()`: default-construct the backing container. -/
def mkDefault : stack α := ⟨vector.mkDefault 0⟩

/-- `push(const T&)` / `push(T&&)`: `container.push_back(t)`. -/
def push (s : stack α) (t : α) (σ : Nat) : stack α × Nat :=
  let p := s.container.push_back t σ
  (⟨p.1⟩, p.2)

/-- `pop()`: `container.pop_back()`. -/
def pop (s : stack α) : stack α := ⟨s.container.pop_back⟩

/-- `top()`: `container.back()`. -/
def top (s : stack α) : Option α := s.container.back

/-- `size()`: `container.size()`. -/
def size (s : stack α) : Nat := s.container.size

/-- `empty()`: `container.empty()`. -/
def empty (s : stack α) : Bool := s.container.empty

end stack

end custom

open custom

/-! ## Helper lemmas shared by several claims -/

/-- Effect of one `push_back` on all four components of the state. -/
theorem push_back_spec {α : Type} (v : vector α) (t : α) (σ : Nat) :
    (v.push_back t σ).1.numElements = v.numElements + 1 ∧
    (v.push_back t σ).1.elems = v.elems ++ [t] ∧
    (v.push_back t σ).1.numCapacity =
      (if v.numCapacity = v.numElements then
         (if v.numCapacity = 0 then 1 else v.numCapacity * 2)
       else v.numCapacity) ∧
    (v.push_back t σ).2 = (if v.numCapacity = v.numElements then σ + 1 else σ) := by
  obtain ⟨a, d, c, e⟩ := v
  simp only [vector.push_back, vector.reserve, vector.numElements]
  by_cases hfull : c = e.length
  · subst hfull
    by_cases h0 : e.length = 0
    · simp [h0]
    · have hgt : ¬ (e.length * 2 ≤ e.length) := by omega
      simp [h0, hgt]
  · simp [hfull]

/-! ## C4 — move construction -/

/-- C4: move-constructing `b` from `a` transfers `a`'s buffer, count and
capacity to `b` unchanged (pointer-copy of the contents, no element-wise
work), and leaves `a` in the empty state: size 0, capacity 0, null buffer. -/
theorem c4_move_ctor_transfers_and_empties_source {α : Type} (a : vector α) :
    ((vector.moveCtor a).1.data = a.data ∧
     (vector.moveCtor a).1.numCapacity = a.numCapacity ∧
     (vector.moveCtor a).1.elems = a.elems) ∧
    ((vector.moveCtor a).2.size = 0 ∧
     (vector.moveCtor a).2.capacity = 0 ∧
     (vector.moveCtor a).2.data = none) :=
  ⟨⟨rfl, rfl, rfl⟩, ⟨rfl, rfl, rfl⟩⟩

/-! ## C9 — pop_back -/

/-- C9: `pop_back` on a non-empty vector destroys the element at index
`count - 1` and decrements the count, leaving the prefix `[0, count-1)`, the
capacity, the buffer and the allocator unchanged; `pop_back` on an empty
vector leaves the entire state unchanged (a no-op, not an error). -/
theorem c9_pop_back_behaviour {α : Type} (v : vector α) :
    (v.elems ≠ [] →
      v.pop_back.elems = v.elems.take (v.numElements - 1) ∧
      v.pop_back.numElements = v.numElements - 1 ∧
      v.pop_back.numCapacity = v.numCapacity ∧
      v.pop_back.data = v.data ∧
      v.pop_back.alloc = v.alloc) ∧
    (v.elems = [] → v.pop_back = v) := by
  constructor
  · intro h
    have hlen : v.elems.length ≠ 0 := by
      simpa [List.length_eq_zero] using h
    simp [vector.pop_back, hlen, vector.numElements, List.dropLast_eq_take]
  · intro h
    simp [vector.pop_back, vector.numElements, h]

/-- Witness for C9 at concrete inputs: a two-element vector and an empty one. -/
theorem c9_pop_back_behaviour_witness :
    ((vector.pop_back (⟨0, some 0, 2, [5, 7]⟩ : vector Nat)).elems = [5] ∧
     (vector.pop_back (⟨0, some 0, 2, [5, 7]⟩ : vector Nat)).numElements = 1) ∧
    vector.pop_back (⟨0, none, 0, []⟩ : vector Nat) = ⟨0, none, 0, []⟩ := by
  refine ⟨?_, (c9_pop_back_behaviour (⟨0, none, 0, []⟩ : vector Nat)).2 rfl⟩
  have h := (c9_pop_back_behaviour (⟨0, some 0, 2, [5, 7]⟩ : vector Nat)).1 (by decide)
  exact ⟨by simpa using h.1, by simpa using h.2.1⟩

/-! ## C10 — begin/end versus emptiness -/

/-- C10: `begin() == end()` exactly when the vector is empty; the equivalence
is unconditional, so it covers both the default-constructed vector (null
buffer) and a vector with positive capacity and count 0. -/
theorem c10_begin_eq_end_iff_empty {α : Type} (v : vector α) :
    v.beginIt = v.endIt ↔ v.empty = true := by
  obtain ⟨a, d, c, e⟩ := v
  simp [vector.beginIt, vector.endIt, vector.empty, vector.iterator.mk.injEq,
    Prod.ext_iff, vector.numElements]
  exact comm.trans List.length_eq_zero

/-! ## C3 — stack scenario and delegation -/

/-- C3: starting from an empty stack, `push 1; push 2; push 3` gives
`size = 3` and `top = 3`; one `pop` gives `size = 2`, `top = 2`; two more
`pop`s leave the stack empty — and every stack operation delegates to the
backing vector's `push_back`, `pop_back`, `back`, `size` and `empty`. -/
theorem c3_stack_scenario_and_delegation :
    (let s0 : stack Nat := stack.mkDefault
     let p1 := s0.push 1 0
     let p2 := p1.1.push 2 p1.2
     let p3 := p2.1.push 3 p2.2
     let s4 := p3.1.pop
     p3.1.size = 3 ∧ p3.1.top = some 3 ∧
       s4.size = 2 ∧ s4.top = some 2 ∧
       s4.pop.pop.empty = true) ∧
    ((∀ {α : Type} (s : stack α) (t : α) (σ : Nat),
        (s.push t σ).1.container = (s.container.push_back t σ).1 ∧
        (s.push t σ).2 = (s.container.push_back t σ).2) ∧
     (∀ {α : Type} (s : stack α), s.pop.container = s.container.pop_back) ∧
     (∀ {α : Type} (s : stack α), s.top = s.container.back) ∧
     (∀ {α : Type} (s : stack α), s.size = s.container.size) ∧
     (∀ {α : Type} (s : stack α), s.empty = s.container.empty)) := by
  refine ⟨by decide, ⟨fun s t σ => ⟨rfl, rfl⟩, fun s => rfl, fun s => rfl,
    fun s => rfl, fun s => rfl⟩⟩

/-! ## C6 — allocator propagation through copy (refuted) -/

/-- C6 counterexample: a vector constructed with injected allocator state `5`
and one element pushed; its copy holds the default-constructed allocator state
`0`, not `5`. -/
theorem c6_counterexample_copy_drops_allocator :
    (vector.copyCtor ((vector.mkDefault 5 : vector Nat).push_back 9 0).1 1).1.alloc
      ≠ ((vector.mkDefault 5 : vector Nat).push_back 9 0).1.alloc := by decide

/-- C6 amended: the injected allocation strategy is NOT propagated through
copy — the copy constructor always holds the default-constructed strategy and
copy assignment always keeps the target's own pre-existing strategy. -/
theorem c6_amended_copy_does_not_propagate_allocator :
    (∀ {α : Type} (rhs : vector α) (σ : Nat), (rhs.copyCtor σ).1.alloc = 0) ∧
    (∀ {α : Type} (v rhs : vector α) (σ : Nat),
      (v.copyAssign rhs σ).1.alloc = v.alloc) := by
  constructor
  · intro α rhs σ
    unfold vector.copyCtor
    split <;> rfl
  · intro α v rhs σ
    unfold vector.copyAssign
    split <;> rfl

/-! ## C7 — copy construction: exact-fit capacity, equal contents, fresh buffer -/

/-- C7: the copy-constructed vector has capacity equal to `rhs`'s count (not
`rhs`'s capacity), is the full empty state when `rhs` is empty, holds the same
live elements as `rhs`, and (for non-empty `rhs`) lives in a freshly allocated
buffer distinct from `rhs`'s, so mutation through the copy cannot affect
`rhs`'s elements. -/
theorem c7_copy_ctor_exact_fit_and_independent {α : Type} (rhs : vector α)
    (σ : Nat) :
    (rhs.copyCtor σ).1.numCapacity = rhs.numElements ∧
    (rhs.copyCtor σ).1.elems = rhs.elems ∧
    (rhs.numElements = 0 →
      (rhs.copyCtor σ).1 = ⟨0, none, 0, []⟩) ∧
    (rhs.numElements ≠ 0 → ∀ i, rhs.data = some i → i < σ →
      (rhs.copyCtor σ).1.data ≠ rhs.data) := by
  by_cases h : rhs.numElements = 0
  · have he : rhs.elems = [] := by
      simpa [vector.numElements, List.length_eq_zero] using h
    refine ⟨?_, ?_, fun _ => ?_, fun hn => absurd h hn⟩ <;>
      simp [vector.copyCtor, h, he]
  · refine ⟨?_, ?_, fun h0 => absurd h0 h, fun _ i hi hlt => ?_⟩
    · simp [vector.copyCtor, h]
    · simp [vector.copyCtor, h]
    · simp only [vector.copyCtor, if_pos h, hi, ne_eq, Option.some.injEq]
      omega

/-- Witness for C7 at a concrete input: `rhs` built by one `push_back` on a
default vector with allocator tag 5, copied with heap counter 3. -/
theorem c7_copy_ctor_exact_fit_and_independent_witness :
    (((vector.mkDefault 5 : vector Nat).push_back 9 0).1.numElements ≠ 0 ∧
      ((vector.mkDefault 5 : vector Nat).push_back 9 0).1.data = some 0 ∧
      (0 : Nat) < 3) ∧
    (vector.copyCtor ((vector.mkDefault 5 : vector Nat).push_back 9 0).1 3).1.data
      ≠ ((vector.mkDefault 5 : vector Nat).push_back 9 0).1.data := by
  refine ⟨⟨by decide, by decide, by decide⟩, ?_⟩
  have h := (c7_copy_ctor_exact_fit_and_independent
    ((vector.mkDefault 5 : vector Nat).push_back 9 0).1 3).2.2.2
    (by decide) 0 (by decide) (by decide)
  simpa using h

/-! ## C5 — reserve as the sole place buffer identity changes (refuted) -/

/-- C5 counterexample: on the reachable state obtained by `push_back` then
`pop_back` from a default-constructed vector (count 0, capacity 1),
`shrink_to_fit` — a public operation other than `reserve` — allocates no new
region (the heap counter is unchanged) yet changes the buffer identity from
the allocated region to the null pointer. -/
theorem c5_counterexample_shrink_changes_buffer_without_alloc :
    ((((vector.mkDefault 0 : vector Nat).push_back 5 0).1.pop_back.shrink_to_fit 1).2
        = 1) ∧
    (((vector.mkDefault 0 : vector Nat).push_back 5 0).1.pop_back.shrink_to_fit 1).1.data
        ≠ ((vector.mkDefault 0 : vector Nat).push_back 5 0).1.pop_back.data := by
  exact ⟨by decide, by decide⟩

/-- C5 amended: reserve, shrink_to_fit and copy assignment are the allocating
operations; among the operations that exchange or release no buffer
(`push_back`, `pop_back`, `clear`, `resize` with and without fill, copy
assignment, `reserve` itself, and `shrink_to_fit` on a non-empty vector), the
buffer identity — hence the address of every live element — is unchanged
whenever the operation allocates no new region; `shrink_to_fit` on an empty
vector with positive capacity releases the buffer (sets it null) without
allocating, and `swap` / move construction / move assignment exchange whole
buffers without allocating. -/
theorem c5_amended_buffer_identity_stable_without_alloc :
    (∀ {α : Type} (v : vector α) (t : α) (σ : Nat),
      (v.push_back t σ).2 = σ → (v.push_back t σ).1.data = v.data) ∧
    (∀ {α : Type} (v : vector α) (n σ : Nat),
      (v.reserve n σ).2 = σ → (v.reserve n σ).1.data = v.data) ∧
    (∀ {α : Type} (v : vector α), v.pop_back.data = v.data) ∧
    (∀ {α : Type} (v : vector α), v.clear.data = v.data) ∧
    (∀ {α : Type} [Inhabited α] (v : vector α) (n σ : Nat),
      (v.resize n σ).2 = σ → (v.resize n σ).1.data = v.data) ∧
    (∀ {α : Type} (v : vector α) (n : Nat) (t : α) (σ : Nat),
      (v.resizeFill n t σ).2 = σ → (v.resizeFill n t σ).1.data = v.data) ∧
    (∀ {α : Type} (v rhs : vector α) (σ : Nat),
      (v.copyAssign rhs σ).2 = σ → (v.copyAssign rhs σ).1.data = v.data) ∧
    (∀ {α : Type} (v : vector α) (σ : Nat), v.numElements ≠ 0 →
      (v.shrink_to_fit σ).2 = σ → (v.shrink_to_fit σ).1.data = v.data) := by
  have hres : ∀ {α : Type} (v : vector α) (n σ : Nat),
      (v.reserve n σ).2 = σ → (v.reserve n σ).1.data = v.data := by
    intro α v n σ h
    by_cases hle : n ≤ v.numCapacity
    · simp [vector.reserve, hle]
    · simp [vector.reserve, hle] at h
  refine ⟨?_, hres, fun v => ?_, fun v => rfl, ?_, ?_, ?_, ?_⟩
  · intro α v t σ h
    by_cases hfull : v.numCapacity = v.numElements
    · simp only [vector.push_back, if_pos hfull] at h ⊢
      exact hres _ _ _ h
    · simp [vector.push_back, hfull]
  · unfold vector.pop_back
    split <;> rfl
  · intro α _ v n σ h
    by_cases h1 : n < v.numElements
    · simp [vector.resize, h1]
    · by_cases h2 : n > v.numElements
      · by_cases h3 : n > v.numCapacity
        · simp only [vector.resize, if_neg h1, if_pos h2, if_pos h3] at h ⊢
          exact hres _ _ _ h
        · simp [vector.resize, h1, h2, h3]
      · simp [vector.resize, h1, h2]
  · intro α v n t σ h
    by_cases h1 : n < v.numElements
    · simp [vector.resizeFill, h1]
    · by_cases h2 : n > v.numElements
      · by_cases h3 : n > v.numCapacity
        · simp only [vector.resizeFill, if_neg h1, if_pos h2, if_pos h3] at h ⊢
          exact hres _ _ _ h
        · simp [vector.resizeFill, h1, h2, h3]
      · simp [vector.resizeFill, h1, h2]
  · intro α v rhs σ h
    by_cases h1 : v.numCapacity < rhs.numElements
    · simp [vector.copyAssign, h1] at h
    · simp [vector.copyAssign, h1]
  · intro α v σ hne h
    by_cases h1 : v.numCapacity > v.numElements
    · have h2 : v.numElements > 0 := Nat.pos_of_ne_zero hne
      simp [vector.shrink_to_fit, h1, h2] at h
    · simp [vector.shrink_to_fit, h1]

/-- Witness for C5 amended: each hypothesis-bearing conjunct applied at a
concrete non-allocating call (capacity 2, one live element, so no growth). -/
theorem c5_amended_buffer_identity_stable_without_alloc_witness :
    (((⟨0, some 0, 2, [4]⟩ : vector Nat).push_back 7 1).2 = 1 ∧
      ((⟨0, some 0, 2, [4]⟩ : vector Nat).push_back 7 1).1.data = some 0) ∧
    (((⟨0, some 0, 2, [4]⟩ : vector Nat).reserve 2 1).2 = 1 ∧
      ((⟨0, some 0, 2, [4]⟩ : vector Nat).reserve 2 1).1.data = some 0) ∧
    (((⟨0, some 0, 2, [4]⟩ : vector Nat).resize 2 1).2 = 1 ∧
      ((⟨0, some 0, 2, [4]⟩ : vector Nat).resize 2 1).1.data = some 0) ∧
    (((⟨0, some 0, 2, [4]⟩ : vector Nat).resizeFill 2 9 1).2 = 1 ∧
      ((⟨0, some 0, 2, [4]⟩ : vector Nat).resizeFill 2 9 1).1.data = some 0) ∧
    (((⟨0, some 0, 2, [4]⟩ : vector Nat).copyAssign (vector.mkDefault 0) 1).2 = 1 ∧
      ((⟨0, some 0, 2, [4]⟩ : vector Nat).copyAssign (vector.mkDefault 0) 1).1.data
        = some 0) ∧
    ((⟨0, some 0, 1, [4]⟩ : vector Nat).numElements ≠ 0 ∧
      ((⟨0, some 0, 1, [4]⟩ : vector Nat).shrink_to_fit 1).2 = 1 ∧
      ((⟨0, some 0, 1, [4]⟩ : vector Nat).shrink_to_fit 1).1.data = some 0) := by
  obtain ⟨h1, h2, _, _, h5, h6, h7, h8⟩ :=
    c5_amended_buffer_identity_stable_without_alloc
  refine ⟨⟨by decide, ?_⟩, ⟨by decide, ?_⟩, ⟨by decide, ?_⟩, ⟨by decide, ?_⟩,
    ⟨by decide, ?_⟩, by decide, by decide, ?_⟩
  · exact (h1 (⟨0, some 0, 2, [4]⟩ : vector Nat) 7 1 (by decide)).trans (by decide)
  · exact (h2 (⟨0, some 0, 2, [4]⟩ : vector Nat) 2 1 (by decide)).trans (by decide)
  · exact (h5 (⟨0, some 0, 2, [4]⟩ : vector Nat) 2 1 (by decide)).trans (by decide)
  · exact (h6 (⟨0, some 0, 2, [4]⟩ : vector Nat) 2 9 1 (by decide)).trans (by decide)
  · exact (h7 (⟨0, some 0, 2, [4]⟩ : vector Nat) (vector.mkDefault 0) 1
      (by decide)).trans (by decide)
  · exact (h8 (⟨0, some 0, 1, [4]⟩ : vector Nat) 1 (by decide) (by decide)).trans
      (by decide)

/-! ## C2 — representation invariants (refuted at n = 0 sized construction) -/

namespace custom

/-- Representation invariant of the spec's data model: I1's count bound
`0 <= count <= capacity` (the live-prefix part of I1 is structural in this
embedding: `elems` is exactly the constructed prefix, and slots
`[count, capacity)` have no representation at all, hence are never read)
together with I2 `buffer == null ⇔ capacity == 0`. -/
def vector.Wf {α : Type} (v : vector α) : Prop :=
  v.numElements ≤ v.numCapacity ∧ (v.data = none ↔ v.numCapacity = 0)

instance {α : Type} (v : vector α) : Decidable v.Wf :=
  inferInstanceAs (Decidable (v.numElements ≤ v.numCapacity ∧
    (v.data = none ↔ v.numCapacity = 0)))

end custom

/-- C2 counterexample: the sized-default construction with `n = 0`
(`vector<T> v(0)`) calls `allocate(0)`, which returns a non-null pointer, so
the constructed state has `capacity == 0` but a non-null buffer — invariant
I2 (`buffer == null ⇔ capacity == 0`) does not hold after this public
operation. -/
theorem c2_counterexample_sized_zero_breaks_i2 :
    ¬ (((vector.mkSized 0 0 0 : vector Nat × Nat).1.data = none) ↔
       ((vector.mkSized 0 0 0 : vector Nat × Nat).1.numCapacity = 0)) := by
  decide

/-- Buffer component after one `push_back`: fresh when the push grew, the old
buffer otherwise. -/
theorem push_back_data {α : Type} (v : vector α) (t : α) (σ : Nat) :
    (v.push_back t σ).1.data =
      (if v.numCapacity = v.numElements then some σ else v.data) := by
  obtain ⟨a, d, c, e⟩ := v
  simp only [vector.push_back, vector.reserve, vector.numElements]
  by_cases hfull : c = e.length
  · subst hfull
    by_cases h0 : e.length = 0
    · simp [h0]
    · have hgt : ¬ (e.length * 2 ≤ e.length) := by omega
      simp [h0, hgt]
  · simp [hfull]

/-- C2 amended: every public operation establishes or preserves
`0 <= count <= capacity` together with I2 (`buffer == null ⇔ capacity == 0`),
EXCEPT the sized-default (and likewise sized-fill and initializer-list)
constructions with `n = 0`, which produce `count = 0 = capacity` but a
non-null buffer, because `allocate(0)` returns a non-null pointer.  (The
live-prefix half of I1 is structural in this embedding: `elems` is the
constructed prefix and the slots `[count, capacity)` have no representation.) -/
theorem c2_amended_invariants_after_public_ops :
    (∀ {α : Type} (a : Nat), (vector.mkDefault a : vector α).Wf) ∧
    (∀ {α : Type} [Inhabited α] (n a σ : Nat), 1 ≤ n →
      (vector.mkSized n a σ : vector α × Nat).1.Wf) ∧
    (∀ {α : Type} [Inhabited α] (a σ : Nat),
      (vector.mkSized 0 a σ : vector α × Nat).1.numElements = 0 ∧
      (vector.mkSized 0 a σ : vector α × Nat).1.numCapacity = 0 ∧
      (vector.mkSized 0 a σ : vector α × Nat).1.data = some σ) ∧
    (∀ {α : Type} (n : Nat) (t : α) (a σ : Nat), 1 ≤ n →
      (vector.mkFill n t a σ).1.Wf) ∧
    (∀ {α : Type} (l : List α) (a σ : Nat), l ≠ [] →
      (vector.mkInitList l a σ).1.Wf) ∧
    (∀ {α : Type} (rhs : vector α) (σ : Nat), (rhs.copyCtor σ).1.Wf) ∧
    (∀ {α : Type} (rhs : vector α), rhs.Wf →
      (vector.moveCtor rhs).1.Wf ∧ (vector.moveCtor rhs).2.Wf) ∧
    (∀ {α : Type} (v : vector α) (t : α) (σ : Nat), v.Wf →
      (v.push_back t σ).1.Wf) ∧
    (∀ {α : Type} (v : vector α), v.Wf → v.pop_back.Wf) ∧
    (∀ {α : Type} (v : vector α), v.Wf → v.clear.Wf) ∧
    (∀ {α : Type} (v : vector α) (n σ : Nat), v.Wf → (v.reserve n σ).1.Wf) ∧
    (∀ {α : Type} (v : vector α) (σ : Nat), v.Wf → (v.shrink_to_fit σ).1.Wf) ∧
    (∀ {α : Type} [Inhabited α] (v : vector α) (n σ : Nat), v.Wf →
      (v.resize n σ).1.Wf) ∧
    (∀ {α : Type} (v : vector α) (n : Nat) (t : α) (σ : Nat), v.Wf →
      (v.resizeFill n t σ).1.Wf) ∧
    (∀ {α : Type} (v rhs : vector α) (σ : Nat), v.Wf →
      (v.copyAssign rhs σ).1.Wf) ∧
    (∀ {α : Type} (v rhs : vector α) (σ : Nat), v.Wf → rhs.Wf →
      (v.moveAssign rhs σ).1.1.Wf ∧ (v.moveAssign rhs σ).1.2.Wf) ∧
    (∀ {α : Type} (v rhs : vector α), v.Wf → rhs.Wf →
      (vector.swapOp v rhs).1.Wf ∧ (vector.swapOp v rhs).2.Wf) := by
  have hshrink : ∀ {α : Type} (v : vector α) (σ : Nat), v.Wf →
      (v.shrink_to_fit σ).1.Wf := by
    intro α v σ hwf
    obtain ⟨a, d, c, e⟩ := v
    obtain ⟨h1, h2⟩ := hwf
    simp only [vector.Wf, vector.numElements] at h1 h2 ⊢
    by_cases hgt : e.length < c
    · by_cases hpos : 0 < e.length
      · simp [vector.shrink_to_fit, vector.numElements, hgt, hpos]
        intro hcon
        simp [hcon] at hpos
      · have he : e = [] := List.length_eq_zero.mp (by omega)
        subst he
        have hc : 0 < c := by simpa using hgt
        simp [vector.shrink_to_fit, vector.numElements, hc]
    · simp [vector.shrink_to_fit, vector.numElements, hgt]
      exact ⟨h1, h2⟩
  refine ⟨?_, ?_, ?_, ?_, ?_, ?_, ?_, ?_, ?_, ?_, ?_, hshrink, ?_, ?_, ?_, ?_, ?_⟩
  · intro α a
    simp [vector.Wf, vector.mkDefault, vector.numElements]
  · intro α _ n a σ hn
    simp [vector.Wf, vector.mkSized, vector.numElements]
    omega
  · intro α _ a σ
    simp [vector.mkSized, vector.numElements]
  · intro α n t a σ hn
    simp [vector.Wf, vector.mkFill, vector.numElements]
    omega
  · intro α l a σ hl
    simp [vector.Wf, vector.mkInitList, vector.numElements, List.length_eq_zero, hl]
  · intro α rhs σ
    obtain ⟨b, d, c, e⟩ := rhs
    by_cases h : e.length = 0
    · simp [vector.copyCtor, vector.Wf, vector.numElements, h]
    · simp [vector.copyCtor, vector.Wf, vector.numElements, h]
  · intro α rhs ⟨h1, h2⟩
    exact ⟨⟨h1, h2⟩, by simp [vector.Wf, vector.moveCtor, vector.numElements]⟩
  · intro α v t σ ⟨h1, h2⟩
    obtain ⟨hc, he, hcap, hσ⟩ := push_back_spec v t σ
    have hd := push_back_data v t σ
    constructor
    · rw [hc, hcap]
      split_ifs with hf h0 <;> omega
    · rw [hd, hcap]
      split_ifs with hf h0
      · simp
      · simp
        omega
      · exact h2
  · intro α v ⟨h1, h2⟩
    obtain ⟨a, d, c, e⟩ := v
    simp only [vector.numElements] at h1 h2 ⊢
    by_cases h : e.length = 0
    · simp [vector.pop_back, vector.Wf, vector.numElements, h]
      exact h2
    · simp [vector.pop_back, vector.Wf, vector.numElements, h]
      refine ⟨by omega, h2⟩
  · intro α v ⟨h1, h2⟩
    exact ⟨by simp [vector.clear, vector.numElements],
      by simpa [vector.clear] using h2⟩
  · intro α v n σ ⟨h1, h2⟩
    obtain ⟨a, d, c, e⟩ := v
    simp only [vector.numElements] at h1 h2 ⊢
    by_cases hle : n ≤ c
    · simpa [vector.reserve, hle] using ⟨h1, h2⟩
    · constructor
      · simp [vector.reserve, hle, vector.numElements]
        omega
      · simp [vector.reserve, hle, vector.numElements]
        omega
  · intro α _ v n σ ⟨h1, h2⟩
    obtain ⟨a, d, c, e⟩ := v
    simp only [vector.numElements] at h1 h2 ⊢
    by_cases hlt : n < e.length
    · simp [vector.resize, vector.Wf, vector.numElements, hlt]
      exact ⟨by omega, h2⟩
    · by_cases hgt : e.length < n
      · by_cases hcap : c < n
        · have hres : ¬ (n ≤ c) := by omega
          simp [vector.resize, vector.Wf, vector.numElements, vector.reserve,
            hlt, hgt, hcap, hres]
          omega
        · simp [vector.resize, vector.Wf, vector.numElements, hlt, hgt, hcap]
          exact ⟨by omega, h2⟩
      · simp [vector.resize, vector.Wf, vector.numElements, hlt, hgt]
        exact ⟨h1, h2⟩
  · intro α v n t σ ⟨h1, h2⟩
    obtain ⟨a, d, c, e⟩ := v
    simp only [vector.numElements] at h1 h2 ⊢
    by_cases hlt : n < e.length
    · simp [vector.resizeFill, vector.Wf, vector.numElements, hlt]
      exact ⟨by omega, h2⟩
    · by_cases hgt : e.length < n
      · by_cases hcap : c < n
        · have hres : ¬ (n ≤ c) := by omega
          simp [vector.resizeFill, vector.Wf, vector.numElements, vector.reserve,
            hlt, hgt, hcap, hres]
          omega
        · simp [vector.resizeFill, vector.Wf, vector.numElements, hlt, hgt, hcap]
          exact ⟨by omega, h2⟩
      · simp [vector.resizeFill, vector.Wf, vector.numElements, hlt, hgt]
        exact ⟨h1, h2⟩
  · intro α v rhs σ ⟨h1, h2⟩
    by_cases hlt : v.numCapacity < rhs.numElements
    · have hlt2 : v.numCapacity < rhs.elems.length := hlt
      constructor
      · simp [vector.copyAssign, vector.numElements, hlt2]
      · simp [vector.copyAssign, vector.numElements, hlt2]
        intro hcon
        rw [hcon] at hlt2
        simp at hlt2
    · have hlt2 : ¬ (v.numCapacity < rhs.elems.length) := hlt
      constructor
      · simp [vector.copyAssign, vector.numElements, hlt2]
        omega
      · simpa [vector.copyAssign, vector.numElements, hlt2] using h2
  · intro α v rhs σ hv hrhs
    refine ⟨hrhs, ?_⟩
    obtain ⟨h1, h2⟩ := hv
    show ((v.clear).shrink_to_fit σ).1.Wf
    exact hshrink v.clear σ ⟨by simp [vector.clear, vector.numElements],
      by simpa [vector.clear] using h2⟩
  · intro α v rhs hv hrhs
    exact ⟨hrhs, hv⟩

/-- Witness for C2 amended: each hypothesis-bearing conjunct applied at a
concrete well-formed state (capacity 2, one live element), with the source for
the binary operations also well-formed. -/
theorem c2_amended_invariants_after_public_ops_witness :
    (vector.mkSized 1 0 0 : vector Nat × Nat).1.Wf ∧
    (vector.mkFill 1 9 0 0 : vector Nat × Nat).1.Wf ∧
    (vector.mkInitList [3] 0 0).1.Wf ∧
    ((vector.moveCtor (⟨0, some 0, 2, [4]⟩ : vector Nat)).1.Wf ∧
      (vector.moveCtor (⟨0, some 0, 2, [4]⟩ : vector Nat)).2.Wf) ∧
    ((⟨0, some 0, 2, [4]⟩ : vector Nat).push_back 7 1).1.Wf ∧
    (⟨0, some 0, 2, [4]⟩ : vector Nat).pop_back.Wf ∧
    (⟨0, some 0, 2, [4]⟩ : vector Nat).clear.Wf ∧
    ((⟨0, some 0, 2, [4]⟩ : vector Nat).reserve 5 1).1.Wf ∧
    ((⟨0, some 0, 2, [4]⟩ : vector Nat).shrink_to_fit 1).1.Wf ∧
    ((⟨0, some 0, 2, [4]⟩ : vector Nat).resize 4 1).1.Wf ∧
    ((⟨0, some 0, 2, [4]⟩ : vector Nat).resizeFill 4 9 1).1.Wf ∧
    ((⟨0, some 0, 2, [4]⟩ : vector Nat).copyAssign
      (⟨1, some 1, 1, [7]⟩ : vector Nat) 1).1.Wf ∧
    (((⟨0, some 0, 2, [4]⟩ : vector Nat).moveAssign
        (⟨1, some 1, 1, [7]⟩ : vector Nat) 1).1.1.Wf ∧
      ((⟨0, some 0, 2, [4]⟩ : vector Nat).moveAssign
        (⟨1, some 1, 1, [7]⟩ : vector Nat) 1).1.2.Wf) ∧
    ((vector.swapOp (⟨0, some 0, 2, [4]⟩ : vector Nat)
        (⟨1, some 1, 1, [7]⟩ : vector Nat)).1.Wf ∧
      (vector.swapOp (⟨0, some 0, 2, [4]⟩ : vector Nat)
        (⟨1, some 1, 1, [7]⟩ : vector Nat)).2.Wf) := by
  obtain ⟨-, h2, -, h4, h5, -, h7, h8, h9, h10, h11, h12, h13, h14, h15, h16, h17⟩ :=
    c2_amended_invariants_after_public_ops
  exact ⟨h2 1 0 0 (by decide), h4 1 9 0 0 (by decide), h5 [3] 0 0 (by decide),
    h7 _ (by decide), h8 _ 7 1 (by decide), h9 _ (by decide), h10 _ (by decide),
    h11 _ 5 1 (by decide), h12 _ 1 (by decide), h13 _ 4 1 (by decide),
    h14 _ 4 9 1 (by decide), h15 _ _ 1 (by decide),
    h16 _ _ 1 (by decide) (by decide), h17 _ _ (by decide) (by decide)⟩

/-! ## C8 — move assignment: implementation versus specified behaviour -/

namespace custom

/-- The specification's description of move assignment (its words, not the
code): "release own resources, then adopt the source's resources and leave the
source empty", with the strategy state transferring like the buffer: the
receiver becomes exactly the source's `buffer`/`count`/`capacity` (and
allocator state), and the source is left valid and empty (`null, 0, 0`) with
the receiver's former allocator state. -/
def vector.moveAssignSpecModel {α : Type} (v rhs : vector α) :
    vector α × vector α :=
  ({ alloc := rhs.alloc, data := rhs.data, numCapacity := rhs.numCapacity,
     elems := rhs.elems },
   { alloc := v.alloc, data := none, numCapacity := 0, elems := [] })

end custom

/-- C8: the implemented move assignment (`clear(); shrink_to_fit(); swap(rhs);`)
is observably equivalent to the specified one — receiver adopts the source's
buffer, count and capacity wholesale, source is left with size 0, capacity 0
and a null buffer — and it performs no allocation (the heap counter is
returned unchanged).  The receiver is only required to satisfy I2
(`buffer == null ⇔ capacity == 0`) beforehand, which every reachable state
away from the `allocate(0)` corner satisfies. -/
theorem c8_move_assign_equals_spec {α : Type} (v rhs : vector α) (σ : Nat)
    (h : v.data = none ↔ v.numCapacity = 0) :
    (v.moveAssign rhs σ).1 = vector.moveAssignSpecModel v rhs ∧
    (v.moveAssign rhs σ).2 = σ := by
  obtain ⟨a, d, c, e⟩ := v
  simp only [vector.moveAssign, vector.clear, vector.shrink_to_fit,
    vector.swapOp, vector.moveAssignSpecModel, vector.numElements] at h ⊢
  by_cases hc : c = 0
  · have hd : d = none := h.mpr hc
    subst hc hd
    simp
  · have hgt : (0 : Nat) < c := Nat.pos_of_ne_zero hc
    simp [hgt]

/-- Witness for C8 at a concrete input: receiver with capacity 2 and one
element (satisfying I2), source with capacity 1 holding `[9]`. -/
theorem c8_move_assign_equals_spec_witness :
    (((⟨0, some 0, 2, [4]⟩ : vector Nat).data = none ↔
        (⟨0, some 0, 2, [4]⟩ : vector Nat).numCapacity = 0) ∧
      ((⟨0, some 0, 2, [4]⟩ : vector Nat).moveAssign
          (⟨1, some 1, 1, [9]⟩ : vector Nat) 5).1
        = vector.moveAssignSpecModel (⟨0, some 0, 2, [4]⟩ : vector Nat)
            (⟨1, some 1, 1, [9]⟩ : vector Nat)) ∧
    ((⟨0, some 0, 2, [4]⟩ : vector Nat).moveAssign
        (⟨1, some 1, 1, [9]⟩ : vector Nat) 5).2 = 5 := by
  have h := c8_move_assign_equals_spec (⟨0, some 0, 2, [4]⟩ : vector Nat)
    (⟨1, some 1, 1, [9]⟩ : vector Nat) 5 (by decide)
  exact ⟨⟨by decide, h.1⟩, h.2⟩

/-! ## C1 — push_back growth policy and the reallocation bound -/

namespace custom

/-- `n` successive `push_back` calls (pushing `0, 1, 2, ...`) starting from a
default-constructed (empty, zero-capacity) vector with a fresh heap; the
second component counts the allocations — i.e. the reallocations — performed
by the pushes. -/
def push_backN (a : Nat) : Nat → vector Nat × Nat
  | 0 => (vector.mkDefault a, 0)
  | n + 1 => (push_backN a n).1.push_back n (push_backN a n).2

end custom

/-- Growth invariant of the doubling policy: after `n ≥ 1` pushes the count is
`n`, at least one reallocation happened, the capacity is exactly
`2 ^ (reallocations - 1)`, and `n ≤ capacity < 2 n`. -/
theorem push_backN_growth_inv (a : Nat) :
    ∀ n : Nat, 1 ≤ n →
      (custom.push_backN a n).1.numElements = n ∧
      1 ≤ (custom.push_backN a n).2 ∧
      (custom.push_backN a n).1.numCapacity =
        2 ^ ((custom.push_backN a n).2 - 1) ∧
      n ≤ (custom.push_backN a n).1.numCapacity ∧
      (custom.push_backN a n).1.numCapacity < 2 * n := by
  intro n
  induction n with
  | zero => intro h; exact absurd h (by decide)
  | succ n ih =>
    intro _
    by_cases hn : n = 0
    · subst hn
      simp [custom.push_backN, vector.push_back, vector.reserve,
        vector.mkDefault, vector.numElements]
    · have h1 : 1 ≤ n := Nat.one_le_iff_ne_zero.mpr hn
      obtain ⟨hc, hσ1, hcap, hle, hlt⟩ := ih h1
      obtain ⟨pc, pe, pcap, pσ⟩ := push_back_spec (custom.push_backN a n).1 n
        (custom.push_backN a n).2
      simp only [custom.push_backN]
      by_cases hfull : (custom.push_backN a n).1.numCapacity =
          (custom.push_backN a n).1.numElements
      · have hcapn : (custom.push_backN a n).1.numCapacity = n := by
          rw [hfull, hc]
        have h0 : ¬ ((custom.push_backN a n).1.numCapacity = 0) := by omega
        rw [if_pos hfull] at pσ pcap
        rw [if_neg h0] at pcap
        refine ⟨by rw [pc, hc], by rw [pσ]; omega, ?_, ?_, ?_⟩
        · rw [pcap, pσ, hcap, Nat.succ_sub_one, ← pow_succ]
          congr 1
          omega
        · rw [pcap, hcapn]
          omega
        · rw [pcap, hcapn]
          omega
      · have hne : (custom.push_backN a n).1.numCapacity ≠ n := by
          rw [hc] at hfull
          exact hfull
        rw [if_neg hfull] at pσ pcap
        refine ⟨by rw [pc, hc], by rw [pσ]; exact hσ1, ?_, ?_, ?_⟩
        · rw [pcap, pσ]
          exact hcap
        · rw [pcap]
          omega
        · rw [pcap]
          omega

/-- C1: `push_back` grows exactly when `count == capacity`, the new capacity
is 1 from capacity 0 and twice the old capacity otherwise, the new element is
constructed at position `count` and the count is incremented; consequently a
sequence of `n` pushes from an empty, zero-capacity vector performs at most
`⌈log2 n⌉ + 1` reallocations. -/
theorem c1_push_back_doubling_and_realloc_bound :
    (∀ {α : Type} (v : vector α) (t : α) (σ : Nat),
      (v.push_back t σ).1.elems = v.elems ++ [t] ∧
      (v.push_back t σ).1.numElements = v.numElements + 1 ∧
      (v.push_back t σ).1.numCapacity =
        (if v.numCapacity = v.numElements then
           (if v.numCapacity = 0 then 1 else v.numCapacity * 2)
         else v.numCapacity) ∧
      ((v.push_back t σ).2 = σ + 1 ↔ v.numCapacity = v.numElements)) ∧
    (∀ (a n : Nat), (custom.push_backN a n).2 ≤ Nat.clog 2 n + 1) := by
  constructor
  · intro α v t σ
    obtain ⟨pc, pe, pcap, pσ⟩ := push_back_spec v t σ
    refine ⟨pe, pc, pcap, ?_⟩
    rw [pσ]
    by_cases hfull : v.numCapacity = v.numElements
    · simp [hfull]
    · simp [hfull]
  · intro a n
    rcases Nat.eq_zero_or_pos n with hn | hn
    · subst hn
      simp [custom.push_backN]
    · obtain ⟨_, hσ1, hcap, hle, hlt⟩ := push_backN_growth_inv a n hn
      have hn2 : n ≤ 2 ^ Nat.clog 2 n := Nat.le_pow_clog (by norm_num) n
      have hpow : 2 ^ ((custom.push_backN a n).2 - 1) <
          2 ^ (Nat.clog 2 n + 1) := by
        calc 2 ^ ((custom.push_backN a n).2 - 1)
            = (custom.push_backN a n).1.numCapacity := hcap.symm
          _ < 2 * n := hlt
          _ ≤ 2 * 2 ^ Nat.clog 2 n := by omega
          _ = 2 ^ (Nat.clog 2 n + 1) := by rw [pow_succ]; ring
      have hlog := (Nat.pow_lt_pow_iff_right (by norm_num : 1 < 2)).mp hpow
      omega
